import Mathlib

/-!
Verification of `unocss-preset-calc` (file `src/preset-calc.ts`) against its
natural-language specification.

The TypeScript code is shallowly embedded: JS numbers are modelled by an
inductive `JSNumber` that separates `NaN`, the two infinities and finite
values; a finite value carries its rational magnitude together with the
string produced by JS template interpolation (we do not model IEEE-754
double-to-string rendering, so the rendering is carried as data).  JS
objects with a fixed set of optional properties become structures with
`Option` fields (`none` = property absent / `undefined`); JS objects used
as string-keyed dictionaries become insertion-ordered association lists
with JS property-assignment semantics (`objInsert`).  Functions that can
`throw` return `Except String`.
-/

namespace PresetCalc

/-- A JavaScript number: `NaN`, `Infinity`, `-Infinity`, or a finite value.
A finite value carries its numeric magnitude `val` (as a rational) and
`repr`, the string produced when the number is interpolated into a JS
template literal. -/
inductive JSNumber where
  | nan : JSNumber
  | posInf : JSNumber
  | negInf : JSNumber
  | finite (val : ℚ) (repr : String) : JSNumber
deriving DecidableEq

/-- JS `isNaN` on a number. -/
def jsIsNaN : JSNumber → Bool
  | .nan => true
  | _ => false

/-- JS `isFinite` on a number. -/
def jsIsFinite : JSNumber → Bool
  | .finite _ _ => true
  | _ => false

/-- JS template interpolation of a number (`String(n)`). -/
def jsToString : JSNumber → String
  | .nan => "NaN"
  | .posInf => "Infinity"
  | .negInf => "-Infinity"
  | .finite _ r => r

/-- JS `<=` on numbers: any comparison involving `NaN` is false. -/
def jsLeB : JSNumber → JSNumber → Bool
  | .nan, _ => false
  | _, .nan => false
  | .negInf, _ => true
  | _, .negInf => false
  | _, .posInf => true
  | .posInf, _ => false
  | .finite a _, .finite b _ => a ≤ b

/-- A container-padding entry as it may appear at runtime: a string or a
number (`typeof` distinguishes them in `buildContainerPadding`). -/
inductive PadVal where
  | str (s : String) : PadVal
  | num (n : JSNumber) : PadVal
deriving DecidableEq

/-- The `container.padding` option object of the `Options` interface
(`DEFAULT?: string; sm?/md?/lg?/xl?/'2xl'?: number`).  The breakpoint
fields are modelled as `PadVal` so that the runtime
`typeof value === 'number'` test in the source is meaningful. -/
structure PaddingOpt where
  DEFAULT : Option String := none
  sm : Option PadVal := none
  md : Option PadVal := none
  lg : Option PadVal := none
  xl : Option PadVal := none
  /-- the `'2xl'` key -/
  x2l : Option PadVal := none
deriving DecidableEq

/-- The `container` option object. -/
structure ContainerOpt where
  padding : Option PaddingOpt := none
deriving DecidableEq

/-- The `Options` interface of `preset-calc.ts`: every property is
optional. -/
structure Options where
  min : Option JSNumber := none
  max : Option JSNumber := none
  CSSglobalVar : Option String := none
  mobileWidth : Option JSNumber := none
  desktopWidth : Option JSNumber := none
  container : Option ContainerOpt := none
deriving DecidableEq

/-- `DEFAULT_OPTIONS` from the source: `{ CSSglobalVar: '--width-screen',
min: 0, max: 1920, mobileWidth: 375, desktopWidth: 768,
container: { padding: { DEFAULT: '1rem', md: 50 } } }`. -/
def DEFAULT_OPTIONS : Options :=
  { CSSglobalVar := some "--width-screen"
    min := some (.finite 0 "0")
    max := some (.finite 1920 "1920")
    mobileWidth := some (.finite 375 "375")
    desktopWidth := some (.finite 768 "768")
    container := some
      { padding := some { DEFAULT := some "1rem", md := some (.num (.finite 50 "50")) } } }

/-- `calculate(value, options)` from the source: throws
`'Value must be a finite number'` when `isNaN(value) || !isFinite(value)`,
otherwise destructures `min = 0`, `max = 1920`,
`CSSglobalVar = '--width-screen'` and returns the template string
`calc(value * clamp(min px,100vw,max px) / var(CSSglobalVar))`. -/
def calculate (value : JSNumber) (options : Options) : Except String String :=
  if jsIsNaN value || !jsIsFinite value then
    .error "Value must be a finite number"
  else
    let mn := options.min.getD (.finite 0 "0")
    let mx := options.max.getD (.finite 1920 "1920")
    let gv := options.CSSglobalVar.getD "--width-screen"
    .ok ("calc(" ++ jsToString value ++ " * clamp(" ++ jsToString mn ++ "px,100vw,"
          ++ jsToString mx ++ "px) / var(" ++ gv ++ "))")

/-- The `properties` argument of `setProperties`: a string, an array of
strings, or a value of any other runtime type (the `.other` payload is the
`typeof` string interpolated into the thrown error message). -/
inductive PropArg where
  | str (s : String) : PropArg
  | list (l : List String) : PropArg
  | other (tyName : String) : PropArg
deriving DecidableEq

/-- JS object property assignment `obj[k] = v` on an insertion-ordered
string-keyed object: updates the value of an existing key in place,
otherwise appends the new key at the end. -/
def objInsert : List (String × String) → String → String → List (String × String)
  | [], k, v => [(k, v)]
  | (k1, v1) :: rest, k, v =>
      if k1 = k then (k1, v) :: rest else (k1, v1) :: objInsert rest k v

/-- Property lookup `obj[k]` on the association-list object model. -/
def lookupKey : List (String × String) → String → Option String
  | [], _ => none
  | (k1, v1) :: rest, k => if k1 = k then some v1 else lookupKey rest k

/-- The error message thrown by `setProperties` for a property argument
that is neither a string nor an array; `t` is `typeof properties`. -/
def propErrMsg (t : String) : String :=
  "Properties must be string or string[], received: " ++ t

/-- `setProperties(value, properties, options)` from the source: for an
array it `reduce`s over the elements assigning
`acc[prop] = calculate(value, options)` starting from `{}`; for a string
it returns the one-entry object; otherwise it throws. -/
def setProperties (value : JSNumber) (properties : PropArg) (options : Options) :
    Except String (List (String × String)) :=
  match properties with
  | .list l =>
      l.foldlM (fun acc prop =>
        (calculate value options).map (fun c => objInsert acc prop c)) []
  | .str s => (calculate value options).map (fun c => [(s, c)])
  | .other t => .error (propErrMsg t)

instance {ε α : Type} [DecidableEq ε] [DecidableEq α] : DecidableEq (Except ε α) :=
  fun a b =>
    match a, b with
    | .ok x, .ok y =>
        if h : x = y then .isTrue (by rw [h])
        else .isFalse (by intro hh; cases hh; exact h rfl)
    | .error x, .error y =>
        if h : x = y then .isTrue (by rw [h])
        else .isFalse (by intro hh; cases hh; exact h rfl)
    | .ok _, .error _ => .isFalse (by intro h; cases h)
    | .error _, .ok _ => .isFalse (by intro h; cases h)

/-- The string `calculate` returns on a finite value (the success branch of
`calculate`, factored out so lemmas can name it). -/
def calcString (value : JSNumber) (o : Options) : String :=
  "calc(" ++ jsToString value ++ " * clamp("
    ++ jsToString (o.min.getD (.finite 0 "0")) ++ "px,100vw,"
    ++ jsToString (o.max.getD (.finite 1920 "1920")) ++ "px) / var("
    ++ o.CSSglobalVar.getD "--width-screen" ++ "))"

/-- Presence-biased choice modelling JS object spread `{...d, ...o}` at one
key: an own property of the override object wins, otherwise the default
object's property is kept. -/
def orDefault {α : Type} (o d : Option α) : Option α :=
  match o with
  | some v => some v
  | none => d

/-- The `container?.padding` read chain, `{}` when an object is missing. -/
def getPadding (o : Options) : PaddingOpt :=
  (o.container.bind (fun c => c.padding)).getD {}

/-- The option merge performed at the top of `presetCalc`:
`{ ...DEFAULT_OPTIONS, ...defaultValues, container: { ...defaults.container,
...overrides?.container, padding: { ...defaults.container.padding,
...overrides?.container?.padding } } }`, generalised over the defaults
object (the source always passes `DEFAULT_OPTIONS`). -/
def mergeConfiguration (d o : Options) : Options :=
  { min := orDefault o.min d.min
    max := orDefault o.max d.max
    CSSglobalVar := orDefault o.CSSglobalVar d.CSSglobalVar
    mobileWidth := orDefault o.mobileWidth d.mobileWidth
    desktopWidth := orDefault o.desktopWidth d.desktopWidth
    container := some
      { padding := some
          { DEFAULT := orDefault (getPadding o).DEFAULT (getPadding d).DEFAULT
            sm := orDefault (getPadding o).sm (getPadding d).sm
            md := orDefault (getPadding o).md (getPadding d).md
            lg := orDefault (getPadding o).lg (getPadding d).lg
            xl := orDefault (getPadding o).xl (getPadding d).xl
            x2l := orDefault (getPadding o).x2l (getPadding d).x2l } } }

/-- The configuration `presetCalc(defaultValues)` constructs at setup. -/
def presetCalcOptions (defaultValues : Options) : Options :=
  mergeConfiguration DEFAULT_OPTIONS defaultValues

/-- The data-model invariant `min ≤ max` read off a configuration, with the
same `0` / `1920` fallbacks `calculate` uses for absent fields; the
comparison follows JS semantics (`NaN` compares false). -/
def minLeMax (o : Options) : Bool :=
  jsLeB (o.min.getD (.finite 0 "0")) (o.max.getD (.finite 1920 "1920"))

/-- JS template interpolation of a possibly-absent number
(`undefined` renders as the string `undefined`). -/
def interpNum (n : Option JSNumber) : String :=
  match n with
  | some v => jsToString v
  | none => "undefined"

/-- JS template interpolation of a possibly-absent string. -/
def interpStr (s : Option String) : String :=
  match s with
  | some v => v
  | none => "undefined"

/-- The preflight `getCSS` of the preset: the template literal that sets
`CSSglobalVar` to `mobileWidth` in `:root` and to `max` inside
`@media (width >= desktopWidth px)`.  The fields are destructured without
fallbacks in the source, so an absent field would render as `undefined`. -/
def getCSS (presetOptions : Options) : String :=
  "\n            :root \x7b\n              "
    ++ interpStr presetOptions.CSSglobalVar ++ ": "
    ++ interpNum presetOptions.mobileWidth
    ++ ";\n            \x7d\n            @media (width >= "
    ++ interpNum presetOptions.desktopWidth
    ++ "px) \x7b\n              :root \x7b\n                "
    ++ interpStr presetOptions.CSSglobalVar ++ ": "
    ++ interpNum presetOptions.max
    ++ ";\n              \x7d\n            \x7d\n          "

/-- A regular-expression syntax covering the preset's patterns: character
classes, literal sequences, `?`, `+`, concatenation and capturing groups
(anchoring `^…$` is implicit: matching is whole-string). -/
inductive Regex where
  | eps : Regex
  | lit (cs : List Char) : Regex
  | seq (s : List Char) : Regex
  | cat (a b : Regex) : Regex
  | opt (r : Regex) : Regex
  | plus (r : Regex) : Regex
  | group (r : Regex) : Regex
deriving DecidableEq

/-- Matching semantics of the regex fragment (whole-string match). -/
inductive RMatch : Regex → List Char → Prop where
  | eps : RMatch .eps []
  | lit {cs : List Char} {c : Char} : c ∈ cs → RMatch (.lit cs) [c]
  | seq {s : List Char} : RMatch (.seq s) s
  | cat {a b : Regex} {xs ys : List Char} :
      RMatch a xs → RMatch b ys → RMatch (.cat a b) (xs ++ ys)
  | optNone {r : Regex} : RMatch (.opt r) []
  | optSome {r : Regex} {xs : List Char} : RMatch r xs → RMatch (.opt r) xs
  | plusOne {r : Regex} {xs : List Char} : RMatch r xs → RMatch (.plus r) xs
  | plusMore {r : Regex} {xs ys : List Char} :
      RMatch r xs → RMatch (.plus r) ys → RMatch (.plus r) (xs ++ ys)
  | group {r : Regex} {xs : List Char} : RMatch r xs → RMatch (.group r) xs

/-- The character class `[\.\d]` used by every rule pattern. -/
def numericClass : List Char :=
  ['.', '0', '1', '2', '3', '4', '5', '6', '7', '8', '9']

/-- The capture group `([\.\d]+)` shared by every rule pattern. -/
def numGroup : Regex := .group (.plus (.lit numericClass))

/-- `^stem([\.\d]+)$`: a literal stem followed by the numeric capture
group. -/
def pat (stem : String) : Regex := .cat (.seq stem.data) numGroup

/-- `^-?stem([\.\d]+)$`: the margin patterns allow an optional leading
dash. -/
def patNeg (stem : String) : Regex :=
  .cat (.opt (.seq ['-'])) (.cat (.seq stem.data) numGroup)

/-- The inner regexes of a pattern's capture groups, in order. -/
def groupsOf : Regex → List Regex
  | .eps => []
  | .lit _ => []
  | .seq _ => []
  | .cat a b => groupsOf a ++ groupsOf b
  | .opt r => groupsOf r
  | .plus r => groupsOf r
  | .group r => r :: groupsOf r

/-- A UnoCSS dynamic rule as the preset builds it: the regex, the target
properties, and the options captured by the matcher closure. -/
structure RuleDef where
  test : Regex
  properties : PropArg
  options : Options
deriving DecidableEq

/-- `createRule(test, properties, options)`. -/
def createRule (test : Regex) (properties : PropArg) (options : Options) : RuleDef :=
  { test := test, properties := properties, options := options }

/-- The static `rules` table of `presetCalc`, in source order. -/
def presetRules (presetOptions : Options) : List RuleDef :=
  [ createRule (pat "text-") (.str "font-size") presetOptions
  , createRule (pat "leading-") (.str "line-height") presetOptions
  , createRule (pat "w-") (.str "width") presetOptions
  , createRule (pat "max-w-") (.str "max-width") presetOptions
  , createRule (pat "min-w-") (.str "min-width") presetOptions
  , createRule (pat "h-") (.str "height") presetOptions
  , createRule (pat "max-h-") (.str "max-height") presetOptions
  , createRule (pat "min-h-") (.str "min-height") presetOptions
  , createRule (pat "size-") (.list ["width", "height"]) presetOptions
  , createRule (pat "gap-") (.str "gap") presetOptions
  , createRule (pat "gap-x-") (.str "column-gap") presetOptions
  , createRule (pat "gap-y-") (.str "row-gap") presetOptions
  , createRule (pat "border-") (.str "border-width") presetOptions
  , createRule (pat "border-t-") (.str "border-top-width") presetOptions
  , createRule (pat "border-r-") (.str "border-right-width") presetOptions
  , createRule (pat "border-b-") (.str "border-bottom-width") presetOptions
  , createRule (pat "border-l-") (.str "border-left-width") presetOptions
  , createRule (pat "border-y-") (.list ["border-top-width", "border-bottom-width"]) presetOptions
  , createRule (pat "border-x-") (.list ["border-left-width", "border-right-width"]) presetOptions
  , createRule (pat "rounded-") (.str "border-radius") presetOptions
  , createRule (pat "rounded-tl-") (.str "border-top-left-radius") presetOptions
  , createRule (pat "rounded-tr-") (.str "border-top-right-radius") presetOptions
  , createRule (pat "rounded-bl-") (.str "border-bottom-left-radius") presetOptions
  , createRule (pat "rounded-br-") (.str "border-bottom-right-radius") presetOptions
  , createRule (pat "rounded-t-") (.list ["border-top-left-radius", "border-top-right-radius"]) presetOptions
  , createRule (pat "rounded-l-") (.list ["border-top-left-radius", "border-bottom-left-radius"]) presetOptions
  , createRule (pat "rounded-r-") (.list ["border-top-right-radius", "border-bottom-right-radius"]) presetOptions
  , createRule (pat "rounded-b-") (.list ["border-bottom-left-radius", "border-bottom-right-radius"]) presetOptions
  , createRule (pat "top-") (.str "top") presetOptions
  , createRule (pat "left-") (.str "left") presetOptions
  , createRule (pat "bottom-") (.str "bottom") presetOptions
  , createRule (pat "right-") (.str "right") presetOptions
  , createRule (patNeg "m-") (.str "margin") presetOptions
  , createRule (patNeg "mt-") (.str "margin-top") presetOptions
  , createRule (patNeg "ml-") (.str "margin-left") presetOptions
  , createRule (patNeg "mr-") (.str "margin-right") presetOptions
  , createRule (patNeg "mb-") (.str "margin-bottom") presetOptions
  , createRule (patNeg "mx-") (.list ["margin-left", "margin-right"]) presetOptions
  , createRule (patNeg "my-") (.list ["margin-top", "margin-bottom"]) presetOptions
  , createRule (pat "p-") (.str "padding") presetOptions
  , createRule (pat "pt-") (.str "padding-top") presetOptions
  , createRule (pat "pl-") (.str "padding-left") presetOptions
  , createRule (pat "pr-") (.str "padding-right") presetOptions
  , createRule (pat "pb-") (.str "padding-bottom") presetOptions
  , createRule (pat "px-") (.list ["padding-left", "padding-right"]) presetOptions
  , createRule (pat "py-") (.list ["padding-top", "padding-bottom"]) presetOptions
  ]

/-- The slice of the host `Theme` object the preset reads. -/
structure ThemeContainer where
  padding : Option (List (String × PadVal)) := none
  maxWidth : Option (List (String × String)) := none
deriving DecidableEq

/-- The host theme passed to `extendTheme` / `buildContainerPadding`. -/
structure Theme where
  container : Option ThemeContainer := none
deriving DecidableEq

/-- The copy step of `buildContainerPadding`:
`newPadding[key] = typeof value === 'string' ? value : String(value)`. -/
def stringOfPadVal : PadVal → String
  | .str s => s
  | .num n => jsToString n

/-- Reading `presetOptions.container?.padding?.[key]` at a breakpoint
key. -/
def padLookup (p : PaddingOpt) (k : String) : Option PadVal :=
  if k = "sm" then p.sm
  else if k = "md" then p.md
  else if k = "lg" then p.lg
  else if k = "xl" then p.xl
  else if k = "2xl" then p.x2l
  else none

/-- The `paddingKeys` constant of `buildContainerPadding`. -/
def paddingKeys : List String := ["sm", "md", "lg", "xl", "2xl"]

/-- The base-padding copy loop of `buildContainerPadding`, building a JS
object from the theme's existing entries with numbers stringified. -/
def jsObjOfPadding (l : List (String × PadVal)) : List (String × String) :=
  l.foldl (fun acc kv => objInsert acc kv.1 (stringOfPadVal kv.2)) []

/-- One iteration of the `paddingKeys.forEach` loop of
`buildContainerPadding`: when the configured value at `key` is a number the
entry is replaced by `calculate` of it (propagating the exception),
otherwise nothing happens. -/
def padStep (presetOptions : Options) (acc : List (String × String)) (key : String) :
    Except String (List (String × String)) :=
  match padLookup (getPadding presetOptions) key with
  | some (.num n) => (calculate n presetOptions).map (fun c => objInsert acc key c)
  | _ => pure acc

/-- The `if (presetOptions.container?.padding?.DEFAULT)` step of
`buildContainerPadding`: a truthy (non-empty, present) configured `DEFAULT`
is assigned into the object, a falsy one is skipped. -/
def applyDefaultPadding (dfl : Option String) (np0 : List (String × String)) :
    List (String × String) :=
  match dfl with
  | some s => if s = "" then np0 else objInsert np0 "DEFAULT" s
  | none => np0

/-- `buildContainerPadding(theme)` from `presetCalc` (the enclosing
`presetOptions` is passed explicitly): copies the theme's existing padding
entries (stringified), then copies a truthy configured `DEFAULT` verbatim,
then replaces each breakpoint key whose configured value is a number by
`calculate` of that number, propagating `calculate`'s exception. -/
def buildContainerPadding (presetOptions : Options) (theme : Theme) :
    Except String (List (String × String)) :=
  let basePadding := ((theme.container).bind (fun c => c.padding)).getD []
  let np0 := jsObjOfPadding basePadding
  let np1 := applyDefaultPadding (getPadding presetOptions).DEFAULT np0
  paddingKeys.foldlM (padStep presetOptions) np1

/-- The opening-brace character. -/
def lbraceChar : Char := Char.ofNat 123

/-- The closing-brace character. -/
def rbraceChar : Char := Char.ofNat 125

/-- `s` contains no closing brace (no CSS block is closed inside `s`). -/
def noClose (s : String) : Bool := s.data.all (fun c => c ≠ rbraceChar)

/-- The claim-level reading of the preflight CSS text: a `:root` block is
opened and — before any block closes — sets `v` to `rootVal`; later a media
prelude `@media (width >= dw px)` opens a block (`x` contains the opening
brace and no closing one) inside which a `:root` block sets `v` to
`mediaVal` before any block closes. -/
def declaresScalingVar (css v rootVal dw mediaVal : String) : Prop :=
  ∃ a b c x y e,
    css = a ++ ":root \x7b" ++ b ++ v ++ ": " ++ rootVal ++ ";" ++ c
        ++ "@media (width >= " ++ dw ++ "px)" ++ x ++ ":root \x7b" ++ y
        ++ v ++ ": " ++ mediaVal ++ ";" ++ e
    ∧ noClose b = true ∧ b.data.all (fun ch => ch ≠ lbraceChar) = true
    ∧ noClose x = true ∧ x.data.contains lbraceChar = true
    ∧ noClose y = true

theorem calculate_finite_ok (q : ℚ) (r : String) (o : Options) :
    calculate (.finite q r) o = .ok (calcString (.finite q r) o) := by
  simp [calculate, calcString, jsIsNaN, jsIsFinite]

theorem calculate_error_msg (v : JSNumber) (o : Options) (e : String)
    (h : calculate v o = .error e) : e = "Value must be a finite number" := by
  cases v <;> simp [calculate, jsIsNaN, jsIsFinite] at h <;> exact h.symm

theorem lookupKey_objInsert (obj : List (String × String)) (k v q : String) :
    lookupKey (objInsert obj k v) q = if k = q then some v else lookupKey obj q := by
  induction obj with
  | nil => rfl
  | cons hd tl ih =>
      obtain ⟨k1, v1⟩ := hd
      by_cases h1 : k1 = k
      · subst h1
        simp only [objInsert, if_pos rfl, lookupKey]
        by_cases h2 : k1 = q <;> simp [h2]
      · simp only [objInsert, if_neg h1, lookupKey, ih]
        by_cases h2 : k1 = q
        · subst h2
          have hk : ¬ k = k1 := fun h => h1 h.symm
          simp [hk]
        · by_cases h3 : k = q <;> simp [h2, h3]

theorem mem_objInsert (obj : List (String × String)) (k v : String) :
    ∀ p ∈ objInsert obj k v, p = (k, v) ∨ p ∈ obj := by
  induction obj with
  | nil => simp [objInsert]
  | cons hd tl ih =>
      obtain ⟨k1, v1⟩ := hd
      intro p hp
      by_cases h1 : k1 = k
      · subst h1
        simp only [objInsert, if_pos rfl] at hp
        rcases List.mem_cons.mp hp with h | h
        · exact .inl h
        · exact .inr (List.mem_cons_of_mem _ h)
      · simp only [objInsert, if_neg h1] at hp
        rcases List.mem_cons.mp hp with h | h
        · exact .inr (h ▸ List.mem_cons_self _ _)
        · rcases ih p h with h2 | h2
          · exact .inl h2
          · exact .inr (List.mem_cons_of_mem _ h2)

theorem contains_foldl_const (l : List String) (acc : List (String × String))
    (c q : String) :
    (lookupKey (l.foldl (fun a k => objInsert a k c) acc) q).isSome = true
      ↔ q ∈ l ∨ (lookupKey acc q).isSome = true := by
  induction l generalizing acc with
  | nil => simp
  | cons hd tl ih =>
      simp only [List.foldl_cons]
      rw [ih, lookupKey_objInsert]
      by_cases h : hd = q
      · subst h
        simp
      · have h2 : ¬ q = hd := fun hh => h hh.symm
        simp [if_neg h, h2]

theorem values_foldl_const (l : List String) (acc : List (String × String))
    (c : String) (hacc : ∀ p ∈ acc, p.2 = c) :
    ∀ p ∈ l.foldl (fun a k => objInsert a k c) acc, p.2 = c := by
  induction l generalizing acc with
  | nil => simpa using hacc
  | cons hd tl ih =>
      simp only [List.foldl_cons]
      refine ih _ (fun p hp => ?_)
      rcases mem_objInsert acc hd c p hp with h | h
      · rw [h]
      · exact hacc p h

theorem foldStep_ok (c : String) (l : List String) (acc : List (String × String)) :
    (l.foldlM (fun a p => (Except.ok c : Except String String).map
        (fun cc => objInsert a p cc)) acc : Except String _)
      = .ok (l.foldl (fun a p => objInsert a p c) acc) := by
  induction l generalizing acc with
  | nil => rfl
  | cons hd tl ih => exact ih (objInsert acc hd c)

theorem foldStep_error (ex : Except String String) (e : String) (l : List String)
    (acc : List (String × String))
    (h : (l.foldlM (fun a p => ex.map (fun cc => objInsert a p cc)) acc
        : Except String _) = .error e) :
    ex = .error e := by
  induction l generalizing acc with
  | nil => exact Except.noConfusion h
  | cons hd tl ih =>
      cases ex with
      | ok c => exact ih (objInsert acc hd c) h
      | error e1 =>
          have h2 : (List.foldlM (fun a p => Except.map (fun cc => objInsert a p cc)
                (Except.error e1)) acc (hd :: tl) : Except String _)
              = Except.error e1 := rfl
          have h3 := h2.symm.trans h
          injection h3 with h4
          rw [h4]

theorem setProperties_list_eq (q : ℚ) (r : String) (o : Options) (l : List String) :
    setProperties (.finite q r) (.list l) o
      = .ok (l.foldl (fun a k => objInsert a k (calcString (.finite q r) o)) []) := by
  show (l.foldlM (fun acc prop => (calculate (.finite q r) o).map
      (fun c => objInsert acc prop c)) [] : Except String _) = _
  rw [calculate_finite_ok]
  exact foldStep_ok _ l []

theorem setProperties_list_error (v : JSNumber) (o : Options) (e : String)
    (l : List String) (h : setProperties v (.list l) o = .error e) :
    calculate v o = .error e :=
  foldStep_error (calculate v o) e l [] h

/-- Claim C1: for every finite number `value` and every configuration that
provides `min`, `max` and the scaling-variable name, `calculate` succeeds and
returns exactly
`calc(<value> * clamp(<min>px,100vw,<max>px) / var(<scalingVariable>))`. -/
theorem C1_calculate_format (q : ℚ) (r : String) (o : Options)
    (mn mx : JSNumber) (t : String)
    (hmn : o.min = some mn) (hmx : o.max = some mx) (ht : o.CSSglobalVar = some t) :
    calculate (.finite q r) o =
      .ok ("calc(" ++ r ++ " * clamp(" ++ jsToString mn ++ "px,100vw,"
            ++ jsToString mx ++ "px) / var(" ++ t ++ "))") := by
  simp [calculate, jsIsNaN, jsIsFinite, hmn, hmx, ht, jsToString]

/-- Witness for C1 at the spec's concrete example:
`calculate(100, defaults)` is
`calc(100 * clamp(0px,100vw,1920px) / var(--width-screen))`. -/
theorem C1_calculate_format_witness :
    calculate (.finite 100 "100") DEFAULT_OPTIONS
      = .ok "calc(100 * clamp(0px,100vw,1920px) / var(--width-screen))" :=
  C1_calculate_format 100 "100" DEFAULT_OPTIONS (.finite 0 "0") (.finite 1920 "1920")
    "--width-screen" rfl rfl rfl

/-- Claim C2: `calculate` raises the input-validation error exactly when the
value is not a finite number — so for `NaN`, `Infinity` and `-Infinity`, and
never for a finite value. -/
theorem C2_calculate_error_iff_nonfinite (v : JSNumber) (o : Options) :
    calculate v o = .error "Value must be a finite number" ↔ jsIsFinite v = false := by
  cases v <;> simp [calculate, jsIsNaN, jsIsFinite]

/-- Witness for C2: `NaN` and both infinities raise the error and a finite
value does not. -/
theorem C2_calculate_error_iff_nonfinite_witness :
    calculate .nan DEFAULT_OPTIONS = .error "Value must be a finite number"
    ∧ calculate .posInf DEFAULT_OPTIONS = .error "Value must be a finite number"
    ∧ calculate .negInf DEFAULT_OPTIONS = .error "Value must be a finite number"
    ∧ ¬ calculate (.finite 50 "50") DEFAULT_OPTIONS = .error "Value must be a finite number" :=
  ⟨(C2_calculate_error_iff_nonfinite .nan DEFAULT_OPTIONS).mpr rfl,
   (C2_calculate_error_iff_nonfinite .posInf DEFAULT_OPTIONS).mpr rfl,
   (C2_calculate_error_iff_nonfinite .negInf DEFAULT_OPTIONS).mpr rfl,
   fun h => by
     simpa [jsIsFinite] using
       (C2_calculate_error_iff_nonfinite (.finite 50 "50") DEFAULT_OPTIONS).mp h⟩

theorem valueMsg_ne_propErrMsg (t : String) :
    "Value must be a finite number" ≠ propErrMsg t := by
  intro h
  have h2 := congrArg String.length h
  rw [propErrMsg, String.length_append] at h2
  have ha : ("Value must be a finite number" : String).length = 29 := by decide
  have hb : ("Properties must be string or string[], received: " : String).length = 49 := by decide
  rw [ha, hb] at h2
  omega

/-- Claim C4: for every finite value and every list of property names,
`setProperties` returns a mapping whose keys are exactly the names in the
list, each mapped to `calculate(value, config)` — all keys carry the
identical expression string — and for a single name `s` it returns the
one-entry mapping from `s` to that expression. -/
theorem C4_setProperties_mapping (q : ℚ) (r : String) (o : Options)
    (l : List String) (s : String) :
    ∃ c, calculate (.finite q r) o = .ok c
      ∧ (∃ m, setProperties (.finite q r) (.list l) o = .ok m
          ∧ (∀ k, (lookupKey m k).isSome = true ↔ k ∈ l)
          ∧ (∀ e ∈ m, e.2 = c))
      ∧ setProperties (.finite q r) (.str s) o = .ok [(s, c)] := by
  refine ⟨calcString (.finite q r) o, calculate_finite_ok q r o,
    ⟨_, setProperties_list_eq q r o l, fun k => ?_, values_foldl_const l [] _ (by simp)⟩, ?_⟩
  · rw [contains_foldl_const]
    simp [lookupKey]
  · show (calculate (.finite q r) o).map (fun c => [(s, c)]) = _
    rw [calculate_finite_ok]
    rfl

/-- Witness for C4 at the spec's example `applyToProperties(10, ['a','b'], cfg)`:
both keys are present and every entry carries the same expression string. -/
theorem C4_setProperties_mapping_witness :
    setProperties (.finite 10 "10") (.list ["a", "b"]) DEFAULT_OPTIONS
      = .ok [("a", "calc(10 * clamp(0px,100vw,1920px) / var(--width-screen))"),
             ("b", "calc(10 * clamp(0px,100vw,1920px) / var(--width-screen))")]
    ∧ setProperties (.finite 10 "10") (.str "a") DEFAULT_OPTIONS
      = .ok [("a", "calc(10 * clamp(0px,100vw,1920px) / var(--width-screen))")] := by
  obtain ⟨c, hc, ⟨m, hm, -, -⟩, hs⟩ :=
    C4_setProperties_mapping 10 "10" DEFAULT_OPTIONS ["a", "b"] "a"
  exact ⟨by rfl, by rfl⟩

/-- Claim C5: `setProperties` fails with the invalid-property-argument error
exactly when the property argument is neither a single name (string) nor a
list of names; a string or list argument never produces that error (any
failure is then the numeric-input error raised by `calculate`). -/
theorem C5_properties_error_iff (v : JSNumber) (o : Options) (p : PropArg) :
    (∃ t, setProperties v p o = .error (propErrMsg t)) ↔ (∃ t, p = .other t) := by
  constructor
  · rintro ⟨t, ht⟩
    cases p with
    | other t1 => exact ⟨t1, rfl⟩
    | str s =>
        exfalso
        cases hcalc : calculate v o with
        | ok c =>
            have : setProperties v (.str s) o = .ok [(s, c)] := by
              show (calculate v o).map (fun c => [(s, c)]) = _
              rw [hcalc]
              rfl
            rw [this] at ht
            exact Except.noConfusion ht
        | error e =>
            have h1 : setProperties v (.str s) o = .error e := by
              show (calculate v o).map (fun c => [(s, c)]) = _
              rw [hcalc]
              rfl
            rw [h1] at ht
            injection ht with ht2
            exact valueMsg_ne_propErrMsg t ((calculate_error_msg v o e hcalc) ▸ ht2)
    | list l =>
        exfalso
        have h1 := setProperties_list_error v o _ l ht
        have h2 := calculate_error_msg v o _ h1
        exact valueMsg_ne_propErrMsg t h2.symm
  · rintro ⟨t, rfl⟩
    exact ⟨t, rfl⟩

/-- Witness for C5: a non-string, non-list argument (here a number) raises
the property-argument error, while a string argument never does. -/
theorem C5_properties_error_iff_witness :
    (∃ t, setProperties (.finite 1 "1") (.other "number") DEFAULT_OPTIONS
        = .error (propErrMsg t))
    ∧ ¬ (∃ t, setProperties (.finite 1 "1") (.str "width") DEFAULT_OPTIONS
        = .error (propErrMsg t)) :=
  ⟨(C5_properties_error_iff (.finite 1 "1") DEFAULT_OPTIONS (.other "number")).mpr
      ⟨"number", rfl⟩,
   fun h => by
     rcases (C5_properties_error_iff (.finite 1 "1") DEFAULT_OPTIONS (.str "width")).mp h
       with ⟨t, ht⟩
     exact PropArg.noConfusion ht⟩

/-- Claim C9: with an empty property list `setProperties` returns the empty
mapping and raises no error for every value, including `NaN` and the
infinities — `calculate` and its finiteness validation are never invoked. -/
theorem C9_empty_list_no_error (v : JSNumber) (o : Options) :
    setProperties v (.list []) o = .ok [] := rfl

/-- Witness for C9: the empty list succeeds even for `NaN`, for which
`calculate` itself throws. -/
theorem C9_empty_list_no_error_witness :
    setProperties .nan (.list []) DEFAULT_OPTIONS = .ok []
    ∧ calculate .nan DEFAULT_OPTIONS = .error "Value must be a finite number" :=
  ⟨C9_empty_list_no_error .nan DEFAULT_OPTIONS, rfl⟩

/-- Claim C3: the setup merge shallow-merges the top-level fields and
deep-merges the nested container padding table, with override values
winning over default values at every merged key: a field present in the
overrides ends up in the merged configuration, a field absent there keeps
the defaults' value, and likewise per padding key. -/
theorem C3_mergeConfiguration (d o : Options) :
    (∀ v, o.min = some v → (mergeConfiguration d o).min = some v)
    ∧ (o.min = none → (mergeConfiguration d o).min = d.min)
    ∧ (∀ v, o.max = some v → (mergeConfiguration d o).max = some v)
    ∧ (o.max = none → (mergeConfiguration d o).max = d.max)
    ∧ (∀ v, o.CSSglobalVar = some v → (mergeConfiguration d o).CSSglobalVar = some v)
    ∧ (o.CSSglobalVar = none → (mergeConfiguration d o).CSSglobalVar = d.CSSglobalVar)
    ∧ (∀ v, o.mobileWidth = some v → (mergeConfiguration d o).mobileWidth = some v)
    ∧ (o.mobileWidth = none → (mergeConfiguration d o).mobileWidth = d.mobileWidth)
    ∧ (∀ v, o.desktopWidth = some v → (mergeConfiguration d o).desktopWidth = some v)
    ∧ (o.desktopWidth = none → (mergeConfiguration d o).desktopWidth = d.desktopWidth)
    ∧ (∀ v, (getPadding o).DEFAULT = some v →
        (getPadding (mergeConfiguration d o)).DEFAULT = some v)
    ∧ ((getPadding o).DEFAULT = none →
        (getPadding (mergeConfiguration d o)).DEFAULT = (getPadding d).DEFAULT)
    ∧ (∀ k v, padLookup (getPadding o) k = some v →
        padLookup (getPadding (mergeConfiguration d o)) k = some v)
    ∧ (∀ k, padLookup (getPadding o) k = none →
        padLookup (getPadding (mergeConfiguration d o)) k = padLookup (getPadding d) k) := by
  refine ⟨fun v h => ?_, fun h => ?_, fun v h => ?_, fun h => ?_, fun v h => ?_,
    fun h => ?_, fun v h => ?_, fun h => ?_, fun v h => ?_, fun h => ?_, fun v h => ?_,
    fun h => ?_, fun k v h => ?_, fun k h => ?_⟩
  case refine_13 =>
    unfold padLookup at h ⊢
    split_ifs at h ⊢ <;> simp_all [mergeConfiguration, getPadding, orDefault]
  case refine_14 =>
    unfold padLookup at h ⊢
    split_ifs at h ⊢ <;> simp_all [mergeConfiguration, getPadding, orDefault]
  all_goals simp_all [mergeConfiguration, getPadding, orDefault]

/-- Witness for C3 at the spec's example: merging overrides `{max: 1200}`
into the defaults keeps `min` and `CSSglobalVar` at their defaults while
`max` becomes 1200. -/
theorem C3_mergeConfiguration_witness :
    (mergeConfiguration DEFAULT_OPTIONS { max := some (.finite 1200 "1200") }).max
        = some (.finite 1200 "1200")
    ∧ (mergeConfiguration DEFAULT_OPTIONS { max := some (.finite 1200 "1200") }).min
        = some (.finite 0 "0")
    ∧ (mergeConfiguration DEFAULT_OPTIONS { max := some (.finite 1200 "1200") }).CSSglobalVar
        = some "--width-screen" := by
  obtain ⟨-, hmin, hmax, -, -, hvar, -⟩ :=
    C3_mergeConfiguration DEFAULT_OPTIONS { max := some (.finite 1200 "1200") }
  exact ⟨hmax _ rfl, (hmin rfl).trans rfl, (hvar rfl).trans rfl⟩

/-- Counterexample to C7 as stated: the merge performs no validation, so
the reachable overrides `{min: 10, max: 5}` produce a setup configuration
violating `min ≤ max`. -/
theorem C7_min_le_max_counterexample :
    minLeMax (presetCalcOptions
      { min := some (.finite 10 "10"), max := some (.finite 5 "5") }) = false := by
  decide

/-- Claim C7 amended: the configuration constructed at setup satisfies
`min ≤ max` whenever the effective override values (override if present,
default otherwise) satisfy it — in particular with no overrides, where the
defaults give 0 ≤ 1920; the merge itself enforces nothing. -/
theorem C7_min_le_max_amended (user : Options)
    (h : jsLeB (user.min.getD (.finite 0 "0"))
          (user.max.getD (.finite 1920 "1920")) = true) :
    minLeMax (presetCalcOptions user) = true := by
  cases hmin : user.min <;> cases hmax : user.max <;>
    simp_all [minLeMax, presetCalcOptions, mergeConfiguration, orDefault, DEFAULT_OPTIONS]

/-- Witness for C7 amended: with no overrides the setup configuration
satisfies the invariant. -/
theorem C7_min_le_max_amended_witness :
    minLeMax (presetCalcOptions {}) = true :=
  C7_min_le_max_amended {} (by decide)

/-- Claim C6: for every configuration produced by the preset setup, the
generated CSS preamble sets the scaling variable to the configured
`mobileWidth` in the default `:root` rule and, inside the
`@media (width >= desktopWidth px)` query, sets the same variable to the
configured `max`. -/
theorem C6_preflight_css (user : Options) :
    declaresScalingVar (getCSS (presetCalcOptions user))
      (interpStr (presetCalcOptions user).CSSglobalVar)
      (interpNum (presetCalcOptions user).mobileWidth)
      (interpNum (presetCalcOptions user).desktopWidth)
      (interpNum (presetCalcOptions user).max) := by
  refine ⟨"\n            ", "\n              ", "\n            \x7d\n            ",
    " \x7b\n              ", "\n                ",
    "\n              \x7d\n            \x7d\n          ", ?_, by decide, by decide,
    by decide, by decide, by decide⟩
  rw [getCSS]
  rw [show ("\n            :root \x7b\n              " : String)
        = "\n            " ++ ":root \x7b" ++ "\n              " from rfl]
  rw [show (";\n            \x7d\n            @media (width >= " : String)
        = ";" ++ "\n            \x7d\n            " ++ "@media (width >= " from rfl]
  rw [show ("px) \x7b\n              :root \x7b\n                " : String)
        = "px)" ++ " \x7b\n              " ++ ":root \x7b" ++ "\n                " from rfl]
  rw [show (";\n              \x7d\n            \x7d\n          " : String)
        = ";" ++ "\n              \x7d\n            \x7d\n          " from rfl]
  simp only [String.append_assoc]

theorem rmatch_lit {cs : List Char} {xs : List Char} (h : RMatch (.lit cs) xs) :
    ∃ c, xs = [c] ∧ c ∈ cs := by
  cases h with
  | lit hc => exact ⟨_, rfl, hc⟩

theorem rmatch_plus_lit_aux {r : Regex} {xs : List Char} (h : RMatch r xs) :
    ∀ cs, r = .plus (.lit cs) → ∀ c ∈ xs, c ∈ cs := by
  induction h with
  | eps => exact fun cs heq => Regex.noConfusion heq
  | lit _ => exact fun cs heq => Regex.noConfusion heq
  | seq => exact fun cs heq => Regex.noConfusion heq
  | cat _ _ _ _ => exact fun cs heq => Regex.noConfusion heq
  | optNone => exact fun cs heq => Regex.noConfusion heq
  | optSome _ _ => exact fun cs heq => Regex.noConfusion heq
  | group _ _ => exact fun cs heq => Regex.noConfusion heq
  | plusOne h1 _ =>
      intro cs heq
      injection heq with h2
      subst h2
      rcases rmatch_lit h1 with ⟨c, rfl, hc⟩
      intro c1 hc1
      rw [List.mem_singleton] at hc1
      exact hc1 ▸ hc
  | plusMore h1 h2 ih1 ih2 =>
      intro cs heq
      injection heq with h3
      subst h3
      intro c hc
      rcases List.mem_append.mp hc with h4 | h4
      · rcases rmatch_lit h1 with ⟨c2, rfl, hc2⟩
        rw [List.mem_singleton] at h4
        exact h4 ▸ hc2
      · exact ih2 cs rfl c h4

theorem rmatch_plus_lit {cs : List Char} {xs : List Char}
    (h : RMatch (.plus (.lit cs)) xs) : ∀ c ∈ xs, c ∈ cs :=
  rmatch_plus_lit_aux h cs rfl

/-- Claim C8: every rule association in the preset's static rule table has
a match pattern capturing exactly one group, and that group matches only
numeric token text — strings over digits and dots. -/
theorem C8_rules_numeric_group (opts : Options) (rule : RuleDef)
    (hr : rule ∈ presetRules opts) :
    (groupsOf rule.test).length = 1
    ∧ ∀ g ∈ groupsOf rule.test, ∀ xs, RMatch g xs →
        ∀ c ∈ xs, c = '.' ∨ c.isDigit = true := by
  have hmap : (presetRules opts).map (fun r => groupsOf r.test)
      = List.replicate 46 [Regex.plus (.lit numericClass)] := rfl
  have hmem := List.mem_map_of_mem (fun r => groupsOf r.test) hr
  rw [hmap] at hmem
  have hgr : groupsOf rule.test = [Regex.plus (.lit numericClass)] :=
    List.eq_of_mem_replicate hmem
  refine ⟨by rw [hgr]; rfl, fun g hg xs hxs c hc => ?_⟩
  rw [hgr, List.mem_singleton] at hg
  subst hg
  have hnc : c ∈ numericClass := rmatch_plus_lit hxs c hc
  have hall : ∀ ch ∈ numericClass, ch = '.' ∨ ch.isDigit = true := by decide
  exact hall c hnc

/-- Witness for C8 at the first rule of the table (`text-` / `font-size`). -/
theorem C8_rules_numeric_group_witness :
    (groupsOf (createRule (pat "text-") (.str "font-size") DEFAULT_OPTIONS).test).length
      = 1 :=
  (C8_rules_numeric_group DEFAULT_OPTIONS _
    (by unfold presetRules; exact List.mem_cons_self _ _)).1

theorem error_bind_ne_ok {α β : Type} (e : String) (f : α → Except String β) (res : β) :
    ¬ ((Except.error e : Except String α) >>= f = .ok res) := by
  intro h
  rw [show ((Except.error e : Except String α) >>= f)
        = (Except.error e : Except String β) from rfl] at h
  exact Except.noConfusion h

theorem padStep_ok_lookup (o : Options) (acc acc1 : List (String × String))
    (key k : String) (hne : k ≠ key) (h : padStep o acc key = .ok acc1) :
    lookupKey acc1 k = lookupKey acc k := by
  unfold padStep at h
  cases hpl : padLookup (getPadding o) key with
  | none =>
      rw [hpl] at h
      injection h with h1
      rw [← h1]
  | some pv =>
      cases pv with
      | str s =>
          rw [hpl] at h
          injection h with h1
          rw [← h1]
      | num n =>
          rw [hpl] at h
          have h2 : (calculate n o).map (fun c => objInsert acc key c) = .ok acc1 := h
          cases hc : calculate n o with
          | error e =>
              rw [hc] at h2
              exact absurd h2 (by simp [Except.map])
          | ok c =>
              rw [hc] at h2
              have h3 : Except.ok (objInsert acc key c) = Except.ok acc1 := h2
              injection h3 with h1
              rw [← h1, lookupKey_objInsert, if_neg (fun hh => hne hh.symm)]

theorem padStep_ok_self_num (o : Options) (acc acc1 : List (String × String))
    (key : String) (n : JSNumber)
    (hpl : padLookup (getPadding o) key = some (.num n))
    (h : padStep o acc key = .ok acc1) :
    ∃ c, calculate n o = .ok c ∧ lookupKey acc1 key = some c := by
  unfold padStep at h
  rw [hpl] at h
  have h2 : (calculate n o).map (fun c => objInsert acc key c) = .ok acc1 := h
  cases hc : calculate n o with
  | error e =>
      rw [hc] at h2
      exact absurd h2 (by simp [Except.map])
  | ok c =>
      rw [hc] at h2
      have h3 : Except.ok (objInsert acc key c) = Except.ok acc1 := h2
      injection h3 with h1
      exact ⟨c, rfl, by rw [← h1, lookupKey_objInsert, if_pos rfl]⟩

theorem padStep_ok_self_nonnum (o : Options) (acc acc1 : List (String × String))
    (key : String) (hpl : ∀ n, padLookup (getPadding o) key ≠ some (.num n))
    (h : padStep o acc key = .ok acc1) : acc1 = acc := by
  unfold padStep at h
  cases hpl2 : padLookup (getPadding o) key with
  | none =>
      rw [hpl2] at h
      injection h with h1
      exact h1.symm
  | some pv =>
      cases pv with
      | str s =>
          rw [hpl2] at h
          injection h with h1
          exact h1.symm
      | num n => exact absurd hpl2 (hpl n)

theorem padFold_not_mem (o : Options) (K : List String)
    (acc res : List (String × String)) (k : String) (hk : k ∉ K)
    (h : (K.foldlM (padStep o) acc : Except String _) = .ok res) :
    lookupKey res k = lookupKey acc k := by
  induction K generalizing acc with
  | nil =>
      injection h with h1
      rw [h1]
  | cons hd tl ih =>
      have hk1 : k ≠ hd := fun hh => hk (hh ▸ List.mem_cons_self _ _)
      have hk2 : k ∉ tl := fun hh => hk (List.mem_cons_of_mem _ hh)
      rw [List.foldlM_cons] at h
      cases hstep : padStep o acc hd with
      | error e =>
          rw [hstep] at h
          exact absurd h (error_bind_ne_ok e _ res)
      | ok acc1 =>
          rw [hstep] at h
          have h2 : (tl.foldlM (padStep o) acc1 : Except String _) = .ok res := h
          rw [ih acc1 hk2 h2]
          exact padStep_ok_lookup o acc acc1 hd k hk1 hstep

theorem padFold_nonnum (o : Options) (K : List String)
    (acc res : List (String × String)) (k : String)
    (hpl : ∀ n, padLookup (getPadding o) k ≠ some (.num n))
    (h : (K.foldlM (padStep o) acc : Except String _) = .ok res) :
    lookupKey res k = lookupKey acc k := by
  induction K generalizing acc with
  | nil =>
      injection h with h1
      rw [h1]
  | cons hd tl ih =>
      rw [List.foldlM_cons] at h
      cases hstep : padStep o acc hd with
      | error e =>
          rw [hstep] at h
          exact absurd h (error_bind_ne_ok e _ res)
      | ok acc1 =>
          rw [hstep] at h
          have h2 : (tl.foldlM (padStep o) acc1 : Except String _) = .ok res := h
          rw [ih acc1 h2]
          by_cases hkh : k = hd
          · subst hkh
            rw [padStep_ok_self_nonnum o acc acc1 k hpl hstep]
          · exact padStep_ok_lookup o acc acc1 hd k hkh hstep

theorem padFold_mem_num (o : Options) (K : List String)
    (acc res : List (String × String)) (k : String) (n : JSNumber)
    (hnd : K.Nodup) (hk : k ∈ K)
    (hpl : padLookup (getPadding o) k = some (.num n))
    (h : (K.foldlM (padStep o) acc : Except String _) = .ok res) :
    ∃ c, calculate n o = .ok c ∧ lookupKey res k = some c := by
  induction K generalizing acc with
  | nil => cases hk
  | cons hd tl ih =>
      rw [List.foldlM_cons] at h
      cases hstep : padStep o acc hd with
      | error e =>
          rw [hstep] at h
          exact absurd h (error_bind_ne_ok e _ res)
      | ok acc1 =>
          rw [hstep] at h
          have h2 : (tl.foldlM (padStep o) acc1 : Except String _) = .ok res := h
          by_cases hkh : k = hd
          · subst hkh
            have hknotl : k ∉ tl := (List.nodup_cons.mp hnd).1
            rcases padStep_ok_self_num o acc acc1 k n hpl hstep with ⟨c, hc, hl⟩
            exact ⟨c, hc, (padFold_not_mem o tl acc1 res k hknotl h2).trans hl⟩
          · have hktl : k ∈ tl := by
              rcases List.mem_cons.mp hk with hh | hh
              · exact absurd hh hkh
              · exact hh
            exact ih acc1 (List.nodup_cons.mp hnd).2 hktl h2

theorem applyDefault_some_ne (s : String) (np0 : List (String × String))
    (hne : s ≠ "") :
    applyDefaultPadding (some s) np0 = objInsert np0 "DEFAULT" s := by
  show (if s = "" then np0 else objInsert np0 "DEFAULT" s) = _
  rw [if_neg hne]

theorem lookup_applyDefault_ne (dfl : Option String) (np0 : List (String × String))
    (k : String) (hk : ¬ ("DEFAULT" : String) = k) :
    lookupKey (applyDefaultPadding dfl np0) k = lookupKey np0 k := by
  cases dfl with
  | none => rfl
  | some s =>
      show lookupKey (if s = "" then np0 else objInsert np0 "DEFAULT" s) k = lookupKey np0 k
      by_cases hse : s = ""
      · rw [if_pos hse]
      · rw [if_neg hse, lookupKey_objInsert, if_neg hk]

/-- Counterexample to C10 as stated: a configured empty-string `DEFAULT`
(reachable via `presetCalc({container:{padding:{DEFAULT:''}}})`) is falsy
in JS, so it is not copied into the result — the theme's pre-existing
`DEFAULT` entry survives instead of the configured value. -/
theorem C10_container_padding_counterexample :
    buildContainerPadding
        (presetCalcOptions { container := some { padding := some { DEFAULT := some "" } } })
        { container := some { padding := some [("DEFAULT", PadVal.str "2rem")] } }
      = .ok [("DEFAULT", "2rem"),
             ("md", "calc(50 * clamp(0px,100vw,1920px) / var(--width-screen))")]
    ∧ lookupKey [("DEFAULT", "2rem"),
        ("md", "calc(50 * clamp(0px,100vw,1920px) / var(--width-screen))")] "DEFAULT"
      ≠ some "" :=
  ⟨rfl, by decide⟩

/-- Claim C10 amended: in the extended container theme's padding, a
non-empty configured `DEFAULT` is copied verbatim — never transformed into
a `calc()` expression (an empty configured `DEFAULT` is falsy in JS and is
skipped, the only correction the code forces); each breakpoint key
`sm`/`md`/`lg`/`xl`/`2xl` whose configured value is a number is replaced by
`calculate` of that number; at breakpoint keys without a configured number
and at every other key the theme's pre-existing padding entries are carried
over (stringified) unchanged. -/
theorem C10_container_padding (o : Options) (theme : Theme)
    (res : List (String × String))
    (h : buildContainerPadding o theme = .ok res) :
    (∀ s, (getPadding o).DEFAULT = some s → s ≠ "" →
        lookupKey res "DEFAULT" = some s)
    ∧ (∀ k n, k ∈ paddingKeys → padLookup (getPadding o) k = some (.num n) →
        ∃ c, calculate n o = .ok c ∧ lookupKey res k = some c)
    ∧ (∀ k, k ∈ paddingKeys → (∀ n, padLookup (getPadding o) k ≠ some (.num n)) →
        lookupKey res k
          = lookupKey (jsObjOfPadding
              (((theme.container).bind (fun c => c.padding)).getD [])) k)
    ∧ (∀ k, k ∉ paddingKeys → k ≠ "DEFAULT" →
        lookupKey res k
          = lookupKey (jsObjOfPadding
              (((theme.container).bind (fun c => c.padding)).getD [])) k) := by
  unfold buildContainerPadding at h
  refine ⟨fun s hs hne => ?_, fun k n hk hpl => ?_, fun k hk hpl => ?_, fun k hk hd => ?_⟩
  · rw [padFold_not_mem o paddingKeys _ res "DEFAULT" (by decide) h, hs,
      applyDefault_some_ne s _ hne, lookupKey_objInsert, if_pos rfl]
  · exact padFold_mem_num o paddingKeys _ res k n (by decide) hk hpl h
  · have hkd : ¬ ("DEFAULT" : String) = k := by
      intro hh
      rw [← hh] at hk
      exact absurd hk (by decide)
    rw [padFold_nonnum o paddingKeys _ res k hpl h, lookup_applyDefault_ne _ _ _ hkd]
  · have hkd : ¬ ("DEFAULT" : String) = k := fun hh => hd hh.symm
    rw [padFold_not_mem o paddingKeys _ res k hk h, lookup_applyDefault_ne _ _ _ hkd]

/-- Witness for C10 amended: with the default configuration and an empty
theme, `DEFAULT` is copied verbatim as `1rem`. -/
theorem C10_container_padding_witness :
    lookupKey [("DEFAULT", "1rem"),
        ("md", "calc(50 * clamp(0px,100vw,1920px) / var(--width-screen))")] "DEFAULT"
      = some "1rem" :=
  (C10_container_padding (presetCalcOptions {}) {}
      [("DEFAULT", "1rem"),
        ("md", "calc(50 * clamp(0px,100vw,1920px) / var(--width-screen))")]
      rfl).1 "1rem" rfl (by decide)

end PresetCalc
